import Mathlib

/-!
Verification of the core of the aiodnsprox DNS proxy (netd-tud/aiodnsprox),
shallowly embedded in Lean 4.

The embedding follows the Python sources:
- aiodnsprox/dns_upstream.py : upstream client (id handling, retry timeout
  computation, SERVFAIL synthesis)
- aiodnsprox/dtls.py         : TinyDTLSWrapper.handle_message state machine,
  DNSOverDTLSServer.close
- aiodnsprox/coap.py         : pending-response map, CoAP render paths,
  base64url handling in render_get, ClosableContext.close
- aiodnsprox/udp.py          : DNSOverUDPServer.close

DNS messages are modelled at message level: id and flags are 16-bit values
(Nat), the question and answer sections are kept as abstract lists.  Wire
encoding and decoding by the dnspython library are treated as the identity
between a message and its wire form, since all claims concern the message
fields only.  The network side of the dnspython query routines is an
explicit oracle parameter (success returns a message, failure is the
DNSException or ConnectionRefusedError path).  Real time is passed in as
the elapsed duration (a rational), since time.time is an environment
input.
-/

namespace Aiodnsprox

/-- A parsed DNS message.  Fields follow dnspython dns.message.Message as
used by dns_upstream.py: a 16-bit transaction id, the 16-bit flags word
(whose low 4 bits are the rcode), and the question and answer sections,
which the proxy treats as payload and which we keep abstract. -/
structure DNSMessage where
  id : Nat
  flags : Nat
  question : List Nat
  answer : List Nat
deriving DecidableEq, Repr

/-- dns.flags.QR -/
def flagQR : Nat := 0x8000
/-- dns.flags.RD -/
def flagRD : Nat := 0x0100
/-- dns.flags.RA -/
def flagRA : Nat := 0x0080
/-- dns.rcode.SERVFAIL -/
def SERVFAIL : Nat := 2

/-- dnspython dns.message.make_response: the response flags are QR plus the
RD bit copied from the query, plus RA when recursion_available is set; the
question section is copied from the query, the answer section starts empty,
and the id is the id of the query. -/
def make_response (q : DNSMessage) (recursionAvailable : Bool) : DNSMessage :=
  { id := q.id
    flags := flagQR ||| (q.flags &&& flagRD) |||
      (if recursionAvailable then flagRA else 0)
    question := q.question
    answer := [] }

/-- dnspython Message.set_rcode for rcodes below 16: the low 4 bits of the
flags word are replaced by the rcode. -/
def set_rcode (r : DNSMessage) (rcode : Nat) : DNSMessage :=
  { r with flags := (r.flags &&& 0xFFF0) ||| rcode }

namespace DNSUpstream

/-- dns_upstream.py, DNSTransport. -/
inductive DNSTransport
  | UDP
  | UDP_TCP_FALLBACK
  | TCP
deriving DecidableEq, Repr

/-- DNSUpstream.DEFAULT_LIFETIME -/
def DEFAULT_LIFETIME : ℚ := 5
/-- DNSUpstream.DEFAULT_TIMEOUT -/
def DEFAULT_TIMEOUT : ℚ := 2

/-- Exceptions that can escape DNSUpstream.query itself (a dns.exception.
Timeout raised by _compute_timeout is not caught by the query method). -/
inductive QueryError
  | timeout
deriving DecidableEq, Repr

/-- dns_upstream.py lines 91-108, DNSUpstream._compute_timeout.  The two
time.time readings are passed in as their difference, elapsed = now - start.
The source assigns now = start on a small negative duration, but now is
never read afterwards and duration keeps its negative value, so the
returned per-attempt timeout is min(lifetime - duration, DEFAULT_TIMEOUT)
with the negative duration intact. -/
def _compute_timeout (elapsed : ℚ) (lifetime : Option ℚ) :
    Except QueryError ℚ :=
  let lt := lifetime.getD DEFAULT_LIFETIME
  if elapsed < 0 ∧ elapsed < -1 then
    Except.error QueryError.timeout
  else if lt ≤ elapsed then
    Except.error QueryError.timeout
  else
    Except.ok (min (lt - elapsed) DEFAULT_TIMEOUT)

/-- dns_upstream.py lines 110-114, DNSUpstream._resp_servfail. -/
def _resp_servfail (query : DNSMessage) : DNSMessage :=
  set_rcode (make_response query true) SERVFAIL

/-- Oracle for the network behaviour of the dnspython query routines and of
dns.entropy.random_16.  For udp and tcp, none is the path on which the call
raises (dns.exception.DNSException, and for tcp also
ConnectionRefusedError); for udp_with_fallback, the success value is the
pair (response, used tcp flag). -/
structure QueryEnv where
  random16 : Nat
  udpOrTcp : DNSMessage → Option DNSMessage
  fallback : DNSMessage → Option (DNSMessage × Bool)

/-- dns_upstream.py lines 116-159, DNSUpstream.query.  The wire parse and
serialisation are the identity at this level.  Note the dataflow of the
source: id_ is initialised to qry.id, but when qry.id == 0 it is
overwritten with the synthesized random id before qry.id is set, so the
final resp.id = id_ assignment writes the synthesized id, not the original
id 0.  The UDP retry loop body runs exactly once, since the query function
either returns a response (loop condition fails) or raises (break). -/
def query (transport : DNSTransport) (env : QueryEnv) (elapsed : ℚ)
    (timeout : Option ℚ) (q : DNSMessage) : Except QueryError DNSMessage :=
  let id_ : Nat := if q.id = 0 then env.random16 else q.id
  let qry : DNSMessage := { q with id := id_ }
  match transport with
  | DNSTransport.UDP =>
      (_compute_timeout elapsed timeout).map (fun _ =>
        match env.udpOrTcp qry with
        | some resp => { resp with id := id_ }
        | none => { _resp_servfail qry with id := id_ })
  | DNSTransport.TCP =>
      Except.ok (match env.udpOrTcp qry with
        | some resp => { resp with id := id_ }
        | none => { _resp_servfail qry with id := id_ })
  | DNSTransport.UDP_TCP_FALLBACK =>
      Except.ok (match env.fallback qry with
        | some (resp, _) => { resp with id := id_ }
        | none => { _resp_servfail qry with id := id_ })

end DNSUpstream

end Aiodnsprox

namespace Aiodnsprox

namespace TinyDTLSWrapper

/-- TinyDTLSWrapper.EVENT_CONNECTED (dtls.py line 112). -/
def EVENT_CONNECTED : Nat := 0x1DE

/-- The mutable slots of a TinyDTLSWrapper relevant to handle_message
(dtls.py lines 138-140): the active-session map (its keys, canonical peer
addresses encoded as Nat; the session handle values are irrelevant to the
claims), the single app-data slot filled by the _read callback (payload and
the padded peer address), and the single last-event slot filled by the
_event callback. -/
structure WrapperState where
  activeSessions : List Nat
  appData : Option (List Nat × Nat)
  lastEvent : Option Nat
deriving DecidableEq, Repr

/-- dtls.py lines 185-207, TinyDTLSWrapper.handle_message, from the point
where the engine call has returned.  ret is the engine return value and st
is the wrapper state after the callbacks the engine triggered have run;
addr is the canonical peer derived in step 1 (the address-tuple argument,
or the 4-tuple of the session argument; the ValueError branch for any other
argument type raises and is not a return path).  The returned triple is
(decrypted payload, peer from the read callback, newly connected). -/
def handle_message (ret : Int) (st : WrapperState) (addr : Nat) :
    (Option (List Nat) × Option Nat × Bool) × WrapperState :=
  if ret < 0 then
    ((none, none, false), st)
  else
    let inserted :=
      st.lastEvent = some EVENT_CONNECTED ∧ addr ∉ st.activeSessions
    let st1 : WrapperState :=
      if inserted then { st with activeSessions := addr :: st.activeSessions }
      else st
    let connected : Bool := decide inserted
    let st2 : WrapperState := { st1 with lastEvent := none }
    match st2.appData with
    | none => ((none, none, connected), st2)
    | some (data, a) => ((some data, some a, connected), { st2 with appData := none })

end TinyDTLSWrapper

namespace PyBase64

/-- The urlsafe base64 alphabet: sextet to character code, with 62 mapped
to the minus sign and 63 to the underscore. -/
def b64urlChar (s : Nat) : Nat :=
  if s < 26 then 65 + s
  else if s < 52 then 97 + (s - 26)
  else if s < 62 then 48 + (s - 52)
  else if s = 62 then 45
  else 95

/-- Character code to sextet, after the urlsafe translation performed by
base64.urlsafe_b64decode (minus to plus, underscore to slash); characters
outside the alphabet yield none and are skipped by the lenient decoder. -/
def b64val (ch : Nat) : Option Nat :=
  if 65 ≤ ch ∧ ch ≤ 90 then some (ch - 65)
  else if 97 ≤ ch ∧ ch ≤ 122 then some (ch - 97 + 26)
  else if 48 ≤ ch ∧ ch ≤ 57 then some (ch - 48 + 52)
  else if ch = 45 ∨ ch = 43 then some 62
  else if ch = 95 ∨ ch = 47 then some 63
  else none

/-- base64.urlsafe_b64encode over byte lists: groups of 3 bytes become 4
characters; a final group of 1 byte becomes 2 characters and 2 padding
signs (code 61), a final group of 2 bytes becomes 3 characters and 1
padding sign. -/
def urlsafe_b64encode : List Nat → List Nat
  | [] => []
  | [a] => [b64urlChar (a / 4), b64urlChar (a % 4 * 16), 61, 61]
  | [a, b] => [b64urlChar (a / 4), b64urlChar (a % 4 * 16 + b / 16),
      b64urlChar (b % 16 * 4), 61]
  | a :: b :: c :: rest =>
      b64urlChar (a / 4) :: b64urlChar (a % 4 * 16 + b / 16) ::
      b64urlChar (b % 16 * 4 + c / 64) :: b64urlChar (c % 64) ::
      urlsafe_b64encode rest

/-- Python bytes.rstrip with the padding sign (code 61): remove all
trailing padding characters. -/
def rstripEq (l : List Nat) : List Nat :=
  (l.reverse.dropWhile (fun ch => ch == 61)).reverse

/-- The padding-stripped urlsafe base64 encoding, computed directly; proved
equal to rstripEq composed with urlsafe_b64encode below. -/
def encStripped : List Nat → List Nat
  | [] => []
  | [a] => [b64urlChar (a / 4), b64urlChar (a % 4 * 16)]
  | [a, b] => [b64urlChar (a / 4), b64urlChar (a % 4 * 16 + b / 16),
      b64urlChar (b % 16 * 4)]
  | a :: b :: c :: rest =>
      b64urlChar (a / 4) :: b64urlChar (a % 4 * 16 + b / 16) ::
      b64urlChar (b % 16 * 4 + c / 64) :: b64urlChar (c % 64) ::
      encStripped rest

/-- CPython binascii.a2b_base64 in its default non-strict mode, as called
by base64.b64decode: characters outside the alphabet are skipped; a
padding character at quad position at least 2 that completes a quad ends
decoding successfully; other padding characters only count the pads seen;
each accepted alphabet character advances the quad position, emitting a
byte at positions 2, 3 and 4 exactly as the C state machine does; input
ending at a nonzero quad position is an error (none). -/
def a2b : List Nat → Nat → Nat → Nat → Option (List Nat)
  | [], 0, _, _ => some []
  | [], _ + 1, _, _ => none
  | ch :: rest, quadPos, leftchar, pads =>
    if ch = 61 then
      if 2 ≤ quadPos ∧ 4 ≤ quadPos + pads + 1 then some []
      else a2b rest quadPos leftchar (pads + 1)
    else
      match b64val ch with
      | none => a2b rest quadPos leftchar pads
      | some v =>
        match quadPos with
        | 0 => a2b rest 1 v 0
        | 1 => (a2b rest 2 (v % 16) 0).map
            (fun out => (leftchar * 4 + v / 16) :: out)
        | 2 => (a2b rest 3 (v % 4) 0).map
            (fun out => (leftchar * 16 + v / 4) :: out)
        | _ => (a2b rest 0 0 0).map
            (fun out => (leftchar * 64 + v) :: out)

/-- base64.urlsafe_b64decode (the urlsafe translation is folded into
b64val). -/
def urlsafe_b64decode (s : List Nat) : Option (List Nat) :=
  a2b s 0 0 0

end PyBase64

namespace Coap

open PyBase64

/-- coap.py line 25, CONTENT_FORMAT_DNS_MESSAGE. -/
def CONTENT_FORMAT_DNS_MESSAGE : Nat := 553

/-- A python dict with list-of-byte keys, as an insertion-ordered
association list: assignment overwrites the first occurrence of the key in
place or appends a fresh entry at the end. -/
def setKV {α : Type} (k : List Nat) (v : α) :
    List (List Nat × α) → List (List Nat × α)
  | [] => [(k, v)]
  | (k1, v1) :: rest =>
      if k = k1 then (k, v) :: rest else (k1, v1) :: setKV k v rest

/-- Lookup in a python dict modelled as an association list. -/
def lookupKV {α : Type} (k : List Nat) :
    List (List Nat × α) → Option α
  | [] => none
  | (k1, v1) :: rest => if k = k1 then some v1 else lookupKV k rest

/-- Number of entries of an association list holding a given key. -/
def keyCount {α : Type} (k : List Nat) (m : List (List Nat × α)) : Nat :=
  (m.filter (fun p => p.1 == k)).length

/-- A one-shot asyncio.Future slot of the pending-response map: pending
until set_result is called, then fulfilled; set_result on a fulfilled slot
raises InvalidStateError. -/
inductive Slot
  | pending
  | fulfilled (resp : List Nat)
deriving DecidableEq, Repr

/-- The _pending_responses dict of _InnerDNSUpstream (coap.py line 43):
exact query bytes to one-shot response slot. -/
abbrev PendingMap : Type := List (List Nat × Slot)

/-- coap.py line 51: entering dispatch inserts a fresh pending slot keyed
by the exact query bytes. -/
def dns_response_insert (m : PendingMap) (query : List Nat) : PendingMap :=
  setKV query Slot.pending m

/-- coap.py lines 45-47, _InnerDNSUpstream.send_response_to_requester:
assert that the requester key is present (none models the assertion
failing), then fulfil the slot; fulfilling an already fulfilled slot is the
InvalidStateError raise of Future.set_result (also none).  No statement
removes the entry from the dict. -/
def send_response_to_requester (m : PendingMap) (requester resp : List Nat) :
    Option PendingMap :=
  match lookupKV requester m with
  | none => none
  | some Slot.pending => some (setKV requester (Slot.fulfilled resp) m)
  | some (Slot.fulfilled _) => none

/-- Observable effects of the CoAP render paths: an upstream dispatch for
the given query bytes (dns_response inserting the slot, firing
dns_query_received and awaiting the slot). -/
inductive CoapEvent
  | upstreamQuery (query : List Nat)
deriving DecidableEq, Repr

/-- Result of a render call: a 2.05/2.04 content response carrying the
payload, or one of the CoAP error responses raised by the handler. -/
inductive RenderOutcome
  | content (payload : List Nat)
  | notAcceptable
  | unsupportedContentFormat
  | badRequest
deriving DecidableEq, Repr

/-- coap.py lines 73-82, DNSQueryResource._render_acceptable.  The source
awaits the upstream response (self._dns_upstream.dns_response(query))
before inspecting the Accept option, so the upstream-dispatch event is
recorded on every path, including the path that then raises NotAcceptable.
The upstream oracle maps query bytes to response bytes. -/
def _render_acceptable (upstream : List Nat → List Nat)
    (accept : Option Nat) (query : List Nat) :
    List CoapEvent × RenderOutcome :=
  let formatted := upstream query
  ([CoapEvent.upstreamQuery query],
    if accept = none ∨ accept = some CONTENT_FORMAT_DNS_MESSAGE then
      RenderOutcome.content formatted
    else
      RenderOutcome.notAcceptable)

/-- coap.py lines 84-89, DNSQueryResource._render_with_payload (the FETCH
and POST path): require the DNS-message content format, then hand the
payload to _render_acceptable. -/
def _render_with_payload (upstream : List Nat → List Nat)
    (accept : Option Nat) (contentFormat : Option Nat) (payload : List Nat) :
    List CoapEvent × RenderOutcome :=
  if contentFormat = some CONTENT_FORMAT_DNS_MESSAGE then
    _render_acceptable upstream accept payload
  else
    ([], RenderOutcome.unsupportedContentFormat)

/-- Python exceptions escaping render_get that are not CoAP error
responses: the ValueError raised by dict() on a sequence element that does
not have exactly two items, and the binascii.Error (a ValueError subclass)
raised by base64 decoding. -/
inductive PyError
  | valueError
deriving DecidableEq, Repr

/-- coap.py line 107: dict(q.split(sign) for q in request.opt.uri_query).
Each query element is split on the equals sign; dict() raises ValueError
unless every resulting element has exactly two items. -/
def dictOfSplit (uriQuery : List (List Nat)) :
    Except PyError (List (List Nat × List Nat)) :=
  (uriQuery.map (fun q => q.splitOn 61)).foldlM
    (fun d e =>
      match e with
      | [k, v] => Except.ok (setKV k v d)
      | _ => Except.error PyError.valueError)
    []

/-- coap.py lines 112-114: the re-padding rule of render_get, appending
padding signs up to the next multiple of 4 (appending 4 of them when the
length is already a multiple of 4). -/
def pyRepad (code : List Nat) : List Nat :=
  code ++ List.replicate (4 - code.length % 4) 61

/-- The key string dns as byte codes. -/
def dnsKey : List Nat := [100, 110, 115]

/-- coap.py lines 100-116, DNSQueryResource.render_get: parse the URI query
into a dict (which can raise ValueError), require the dns key (otherwise
the 4.00 BadRequest response), base64url-decode its re-padded value and
hand the query to _render_acceptable. -/
def render_get (upstream : List Nat → List Nat) (accept : Option Nat)
    (uriQuery : List (List Nat)) :
    Except PyError (List CoapEvent × RenderOutcome) := do
  let queries ← dictOfSplit uriQuery
  match lookupKV dnsKey queries with
  | some code =>
      match urlsafe_b64decode (pyRepad code) with
      | some query => Except.ok (_render_acceptable upstream accept query)
      | none => Except.error PyError.valueError
  | none => Except.ok ([], RenderOutcome.badRequest)

end Coap

namespace Servers

/-- The I/O operations a close path can issue: closing the datagram
transport, closing one DTLS session (sending close_notify), shutting down
the aiocoap context. -/
inductive IOAction
  | closeTransport
  | closeSession (peer : Nat)
  | shutdownContext
deriving DecidableEq, Repr

/-- State of a DNSOverUDPServer relevant to close (udp.py lines 71-74): the
transport reference, or none once closed. -/
structure UDPServerState where
  transport : Option Nat
deriving DecidableEq, Repr

/-- udp.py lines 71-74, DNSOverUDPServer.close: when a transport is held,
close it and drop the reference; otherwise do nothing.  Returns the new
state and the I/O issued. -/
def udpClose (s : UDPServerState) : UDPServerState × List IOAction :=
  match s.transport with
  | none => (s, [])
  | some _ => ({ transport := none }, [IOAction.closeTransport])

/-- State of a DNSOverDTLSServer relevant to close (dtls.py lines 274-280):
the transport reference and the wrapper with its active session keys (none
once the wrapper reference is dropped). -/
structure DTLSServerState where
  transport : Option Nat
  dtlsSessions : Option (List Nat)
deriving DecidableEq, Repr

/-- dtls.py lines 274-280, DNSOverDTLSServer.close: when a transport is
held, close every active DTLS session of the wrapper (when the wrapper is
still alive), close the transport and drop the reference; otherwise do
nothing. -/
def dtlsClose (s : DTLSServerState) : DTLSServerState × List IOAction :=
  match s.transport with
  | none => (s, [])
  | some _ =>
      let sessionActs :=
        match s.dtlsSessions with
        | none => []
        | some peers => peers.map IOAction.closeSession
      ({ transport := none,
         dtlsSessions := s.dtlsSessions.map (fun _ => []) },
        sessionActs ++ [IOAction.closeTransport])

/-- State of a ClosableContext relevant to close (coap.py lines 132-140):
the request-interfaces registry, emptied after shutdown. -/
structure CoapContextState where
  requestInterfaces : List Nat
deriving DecidableEq, Repr

/-- coap.py lines 132-140, ClosableContext.close: when the
request-interfaces registry is non-empty, shut the context down (an
AttributeError from a second shutdown is swallowed, but the guard already
prevents reaching it) and replace the registry by a fresh empty one;
otherwise do nothing. -/
def coapClose (s : CoapContextState) : CoapContextState × List IOAction :=
  if s.requestInterfaces.isEmpty then (s, [])
  else ({ requestInterfaces := [] }, [IOAction.shutdownContext])

end Servers

open DNSUpstream

/-- The RD bit of a 16-bit flags word is either absent or present. -/
theorem land_flagRD (x : Nat) : x &&& flagRD = 0 ∨ x &&& flagRD = flagRD := by
  have h : x &&& 2 ^ 8 = (x.testBit 8).toNat * 2 ^ 8 := Nat.and_two_pow x 8
  have h256 : (2 : Nat) ^ 8 = 256 := by norm_num
  rw [h256] at h
  cases hb : x.testBit 8 <;> rw [hb] at h <;>
    simp [flagRD] at h ⊢ <;> omega

/-- The synthesized SERVFAIL response of _resp_servfail has rcode SERVFAIL
in its low 4 bits, the QR and RA bits set, and the RD bit copied from the
query. -/
theorem servfail_flags (q : DNSMessage) :
    (_resp_servfail q).flags &&& 0xF = SERVFAIL ∧
    (_resp_servfail q).flags &&& flagQR = flagQR ∧
    (_resp_servfail q).flags &&& flagRA = flagRA ∧
    (_resp_servfail q).flags &&& flagRD = q.flags &&& flagRD := by
  unfold _resp_servfail make_response set_rcode
  rcases land_flagRD q.flags with h | h <;> rw [h] <;>
    refine ⟨?_, ?_, ?_, ?_⟩ <;> simp <;> decide

/-- C1: DNSUpstream.query does not restore transaction id 0.  For a query
with id 0, the local variable holding the id to write back is overwritten
with the synthesized random 16-bit id (43981 here) before the rewrite, so
the response returned to the caller carries the synthesized id and not the
original id 0 that the claim demands. -/
theorem C1_query_id_zero_returns_synthesized_id :
    (DNSUpstream.query DNSTransport.TCP
        ⟨43981, fun m => some { m with answer := [7] }, fun _ => none⟩
        0 none ⟨0, 0x0100, [3], []⟩).map DNSMessage.id =
      Except.ok 43981 ∧ (43981 : Nat) ≠ 0 :=
  ⟨rfl, by decide⟩

/-- C2 counterexample: for a failing upstream and a query whose RD flag is
clear, the synthesized SERVFAIL response has flags QR | RA (with rcode 2 in
the low bits), not QR | RD | RA as the claim states: the RD bit is copied
from the query rather than set unconditionally. -/
theorem C2_counterexample :
    (DNSUpstream.query DNSTransport.TCP ⟨1, fun _ => none, fun _ => none⟩
        0 none ⟨5, 0, [9], []⟩).map DNSMessage.flags =
      Except.ok ((flagQR ||| flagRA) ||| SERVFAIL) ∧
    (flagQR ||| flagRA) ||| SERVFAIL ≠
      (flagQR ||| flagRD ||| flagRA) ||| SERVFAIL :=
  ⟨rfl, by decide⟩

/-- C2 amended: for every query on which the upstream transport operation
fails (any DNS exception for UDP, UDP_TCP_FALLBACK or TCP, and connection
refusal for TCP and UDP_TCP_FALLBACK), DNSUpstream.query does not raise to
the caller but returns a locally synthesized response with rcode SERVFAIL
(2), flags QR and RA set and the RD bit copied from the original query
(hence QR | RD | RA exactly when the query requested recursion), and with
the question section of the original query preserved.  For the UDP branch
the elapsed time must not already have exceeded the lifetime, since the
timeout computation runs before the transport call. -/
theorem C2_servfail_on_upstream_failure
    (transport : DNSTransport) (env : QueryEnv) (elapsed : ℚ)
    (timeout : Option ℚ) (q : DNSMessage)
    (hu : ∀ m, env.udpOrTcp m = none)
    (hf : ∀ m, env.fallback m = none)
    (h0 : 0 ≤ elapsed)
    (hl : elapsed < timeout.getD DEFAULT_LIFETIME) :
    ∃ r, DNSUpstream.query transport env elapsed timeout q = Except.ok r ∧
      r.flags &&& 0xF = SERVFAIL ∧
      r.flags &&& flagQR = flagQR ∧
      r.flags &&& flagRA = flagRA ∧
      r.flags &&& flagRD = q.flags &&& flagRD ∧
      r.question = q.question ∧
      r.id = (if q.id = 0 then env.random16 else q.id) := by
  have ht : _compute_timeout elapsed timeout =
      Except.ok (min (timeout.getD DEFAULT_LIFETIME - elapsed) DEFAULT_TIMEOUT) := by
    simp only [_compute_timeout]
    rw [if_neg, if_neg]
    · exact not_le.mpr hl
    · rintro ⟨hneg, -⟩
      exact absurd hneg (not_lt.mpr h0)
  cases transport <;>
    simp only [DNSUpstream.query, hu, hf, ht, Except.map] <;>
    exact ⟨_, rfl, (servfail_flags _).1, (servfail_flags _).2.1,
      (servfail_flags _).2.2.1, (servfail_flags _).2.2.2, rfl, rfl⟩

/-- C2 witness: the amended SERVFAIL theorem applied to a concrete failing
TCP upstream and a concrete query with RD set. -/
theorem C2_servfail_witness :
    ∃ r, DNSUpstream.query DNSTransport.TCP ⟨7, fun _ => none, fun _ => none⟩
        0 none ⟨5, 0x0100, [9], []⟩ = Except.ok r ∧
      r.flags &&& 0xF = SERVFAIL ∧
      r.flags &&& flagQR = flagQR ∧
      r.flags &&& flagRA = flagRA ∧
      r.flags &&& flagRD = (⟨5, 0x0100, [9], []⟩ : DNSMessage).flags &&& flagRD ∧
      r.question = [9] ∧
      r.id = (if (5 : Nat) = 0 then 7 else 5) :=
  C2_servfail_on_upstream_failure DNSTransport.TCP
    ⟨7, fun _ => none, fun _ => none⟩ 0 none ⟨5, 0x0100, [9], []⟩
    (fun _ => rfl) (fun _ => rfl) (le_refl 0)
    (by simp [DEFAULT_LIFETIME])

/-- C8: in _compute_timeout an elapsed duration below -1 second raises a
timeout, as the claim states; but a small negative elapsed duration is not
clamped to zero (the assignment now = start in the source is dead): on
elapsed -1/2 with lifetime 1 the code returns
min(lifetime - duration, DEFAULT_TIMEOUT) = 3/2, where the claim demands
min(lifetime, DEFAULT_TIMEOUT) = 1. -/
theorem C8_compute_timeout_negative_duration :
    _compute_timeout (-2) (some 1) = Except.error QueryError.timeout ∧
    _compute_timeout (-1/2) (some 1) = Except.ok (3/2) ∧
    (3/2 : ℚ) ≠ min 1 DEFAULT_TIMEOUT := by
  refine ⟨?_, ?_, ?_⟩
  · simp only [_compute_timeout]
    norm_num
  · simp only [_compute_timeout]
    norm_num [DEFAULT_TIMEOUT, min_def]
  · norm_num [DEFAULT_TIMEOUT, min_def]

open TinyDTLSWrapper

/-- C3 counterexample: on the negative engine-return path handle_message
returns without clearing either slot: with a stale last event 5 and stale
app data, both slots still hold their values after the call, contradicting
the claim that both are cleared on every return path. -/
theorem C3_counterexample :
    (handle_message (-1) ⟨[], some ([1], 7), some 5⟩ 7).2.lastEvent = some 5 ∧
    (handle_message (-1) ⟨[], some ([1], 7), some 5⟩ 7).2.appData = some ([1], 7) :=
  ⟨rfl, rfl⟩

/-- C3 amended: on every return path of handle_message on which the engine
return value is non-negative, both the last app-data slot and the
last-event slot are cleared; on the negative engine-return path the method
returns early and leaves both slots untouched. -/
theorem C3_slots_cleared_on_nonneg_return (ret : Int) (st : WrapperState)
    (addr : Nat) (h : 0 ≤ ret) :
    (handle_message ret st addr).2.lastEvent = none ∧
    (handle_message ret st addr).2.appData = none := by
  unfold handle_message
  rw [if_neg (not_lt.mpr h)]
  rcases had : st.appData with - | ⟨data, a⟩ <;>
    by_cases hins : st.lastEvent = some EVENT_CONNECTED ∧ addr ∉ st.activeSessions <;>
    simp [hins, had]

/-- C3 witness: the amended clearing theorem applied at engine return 0 on
a state with a pending connected event and pending app data. -/
theorem C3_slots_cleared_witness :
    (handle_message 0 ⟨[], some ([2], 9), some EVENT_CONNECTED⟩ 9).2.lastEvent = none ∧
    (handle_message 0 ⟨[], some ([2], 9), some EVENT_CONNECTED⟩ 9).2.appData = none :=
  C3_slots_cleared_on_nonneg_return 0 ⟨[], some ([2], 9), some EVENT_CONNECTED⟩ 9
    (le_refl 0)

/-- C7: whenever handle_message returns a triple whose third element
(newly connected) is true, the canonical peer address is a key of the
active-session map in the state handle_message returns. -/
theorem C7_connected_implies_session (ret : Int) (st : WrapperState) (addr : Nat)
    (h : (handle_message ret st addr).1.2.2 = true) :
    addr ∈ (handle_message ret st addr).2.activeSessions := by
  by_cases hret : ret < 0
  · rw [handle_message, if_pos hret] at h
    exact absurd h (by simp)
  · rw [handle_message, if_neg hret] at h ⊢
    by_cases hins : st.lastEvent = some EVENT_CONNECTED ∧ addr ∉ st.activeSessions
    · rcases had : st.appData with - | ⟨data, a⟩ <;> simp [hins, had]
    · rcases had : st.appData with - | ⟨data, a⟩ <;> simp [hins, had] at h

/-- C7 witness: engine return 0 on a state with a pending connected event
and no session for peer 9 yields newly connected = true, and peer 9 is then
a key of the active-session map. -/
theorem C7_connected_witness :
    (9 : Nat) ∈ (handle_message 0 ⟨[], none, some EVENT_CONNECTED⟩ 9).2.activeSessions :=
  C7_connected_implies_session 0 ⟨[], none, some EVENT_CONNECTED⟩ 9 rfl

namespace PyBase64

/-- No alphabet character is the padding sign. -/
theorem b64urlChar_ne_pad (s : Nat) : b64urlChar s ≠ 61 := by
  unfold b64urlChar
  split <;> [omega; split <;> [omega; split <;> [omega; split <;> omega]]]

/-- Boolean form of b64urlChar_ne_pad. -/
theorem b64urlChar_beq_pad (s : Nat) : (b64urlChar s == 61) = false := by
  simpa using b64urlChar_ne_pad s

/-- Decoding inverts the alphabet on every sextet. -/
theorem b64val_b64urlChar (s : Nat) (h : s < 64) :
    b64val (b64urlChar s) = some s := by
  revert h
  revert s
  decide

/-- One decoder step at quad position 0 on an alphabet character. -/
theorem a2b_cons0 (ch : Nat) (rest : List Nat) (v lc pads : Nat)
    (hch : ch ≠ 61) (hv : b64val ch = some v) :
    a2b (ch :: rest) 0 lc pads = a2b rest 1 v 0 := by
  simp [a2b, hch, hv]

/-- One decoder step at quad position 1 on an alphabet character. -/
theorem a2b_cons1 (ch : Nat) (rest : List Nat) (v lc pads : Nat)
    (hch : ch ≠ 61) (hv : b64val ch = some v) :
    a2b (ch :: rest) 1 lc pads =
      (a2b rest 2 (v % 16) 0).map (fun out => (lc * 4 + v / 16) :: out) := by
  simp [a2b, hch, hv]

/-- One decoder step at quad position 2 on an alphabet character. -/
theorem a2b_cons2 (ch : Nat) (rest : List Nat) (v lc pads : Nat)
    (hch : ch ≠ 61) (hv : b64val ch = some v) :
    a2b (ch :: rest) 2 lc pads =
      (a2b rest 3 (v % 4) 0).map (fun out => (lc * 16 + v / 4) :: out) := by
  simp [a2b, hch, hv]

/-- One decoder step at quad position 3 on an alphabet character. -/
theorem a2b_cons3 (ch : Nat) (rest : List Nat) (v lc pads : Nat)
    (hch : ch ≠ 61) (hv : b64val ch = some v) :
    a2b (ch :: rest) 3 lc pads =
      (a2b rest 0 0 0).map (fun out => (lc * 64 + v) :: out) := by
  simp [a2b, hch, hv]

/-- Four padding signs at quad position 0 are consumed without effect and
end decoding successfully at the end of input. -/
theorem a2b_pads4 (lc pads : Nat) :
    a2b [61, 61, 61, 61] 0 lc pads = some [] := by
  simp [a2b]

/-- Two padding signs complete a quad from position 2. -/
theorem a2b_pads2 (lc : Nat) : a2b [61, 61] 2 lc 0 = some [] := by
  simp [a2b]

/-- One padding sign completes a quad from position 3. -/
theorem a2b_pads1 (lc : Nat) : a2b [61] 3 lc 0 = some [] := by
  simp [a2b]

/-- Decoding a full encoded quad recovers the three input bytes and
continues in the initial state. -/
theorem a2b_quad (a b c : Nat) (ha : a < 256) (hb : b < 256) (hc : c < 256)
    (tail : List Nat) :
    a2b (b64urlChar (a / 4) :: b64urlChar (a % 4 * 16 + b / 16) ::
         b64urlChar (b % 16 * 4 + c / 64) :: b64urlChar (c % 64) :: tail) 0 0 0
    = (a2b tail 0 0 0).map (fun out => a :: b :: c :: out) := by
  rw [a2b_cons0 _ _ _ _ _ (b64urlChar_ne_pad _)
      (b64val_b64urlChar _ (by omega)),
    a2b_cons1 _ _ _ _ _ (b64urlChar_ne_pad _)
      (b64val_b64urlChar _ (by omega)),
    a2b_cons2 _ _ _ _ _ (b64urlChar_ne_pad _)
      (b64val_b64urlChar _ (by omega)),
    a2b_cons3 _ _ _ _ _ (b64urlChar_ne_pad _)
      (b64val_b64urlChar _ (by omega))]
  cases htail : a2b tail 0 0 0
  · simp
  · simp
    omega

/-- dropWhile distributes over an append whose left part does not vanish. -/
theorem dropWhile_append_of_ne_nil (p : Nat → Bool) :
    ∀ xs ys : List Nat, xs.dropWhile p ≠ [] →
      (xs ++ ys).dropWhile p = xs.dropWhile p ++ ys
  | [], _, h => absurd rfl h
  | x :: xs, ys, h => by
      by_cases hx : p x
      · have h2 : xs.dropWhile p ≠ [] := by
          rw [List.dropWhile_cons_of_pos hx] at h
          exact h
        rw [List.cons_append, List.dropWhile_cons_of_pos hx,
          List.dropWhile_cons_of_pos hx]
        exact dropWhile_append_of_ne_nil p xs ys h2
      · rw [List.cons_append, List.dropWhile_cons_of_neg (by simpa using hx),
          List.dropWhile_cons_of_neg (by simpa using hx), List.cons_append]

/-- The stripped encoding of a non-empty byte list is non-empty. -/
theorem encStripped_ne_nil : ∀ q : List Nat, q ≠ [] → encStripped q ≠ []
  | [], h => absurd rfl h
  | [_], _ => by simp [encStripped]
  | [_, _], _ => by simp [encStripped]
  | _ :: _ :: _ :: _, _ => by simp [encStripped]

/-- Stripping the padded encoding yields the direct stripped encoding. -/
theorem rstrip_encode : ∀ q : List Nat,
    rstripEq (urlsafe_b64encode q) = encStripped q
  | [] => rfl
  | [a] => by
      simp [rstripEq, urlsafe_b64encode, encStripped, List.dropWhile,
        b64urlChar_beq_pad]
  | [a, b] => by
      simp [rstripEq, urlsafe_b64encode, encStripped, List.dropWhile,
        b64urlChar_beq_pad]
  | a :: b :: c :: rest => by
      have ih := rstrip_encode rest
      by_cases hrest : rest = []
      · subst hrest
        simp [rstripEq, urlsafe_b64encode, encStripped, List.dropWhile,
          b64urlChar_beq_pad]
      · have hne : encStripped rest ≠ [] := encStripped_ne_nil rest hrest
        have hdw : (urlsafe_b64encode rest).reverse.dropWhile
            (fun ch => ch == 61) ≠ [] := by
          intro hcon
          apply hne
          rw [← ih]
          unfold rstripEq
          rw [hcon]
          rfl
        show rstripEq (b64urlChar (a / 4) :: b64urlChar (a % 4 * 16 + b / 16) ::
          b64urlChar (b % 16 * 4 + c / 64) :: b64urlChar (c % 64) ::
          urlsafe_b64encode rest) = _
        unfold rstripEq
        rw [show b64urlChar (a / 4) :: b64urlChar (a % 4 * 16 + b / 16) ::
            b64urlChar (b % 16 * 4 + c / 64) :: b64urlChar (c % 64) ::
            urlsafe_b64encode rest =
          [b64urlChar (a / 4), b64urlChar (a % 4 * 16 + b / 16),
            b64urlChar (b % 16 * 4 + c / 64), b64urlChar (c % 64)] ++
            urlsafe_b64encode rest from rfl]
        rw [List.reverse_append,
          dropWhile_append_of_ne_nil _ _ _ hdw, List.reverse_append]
        unfold rstripEq at ih
        rw [ih]
        rfl

end PyBase64

namespace PyBase64

/-- Decoding the re-padded stripped encoding recovers the bytes. -/
theorem decode_encStripped : ∀ q : List Nat, (∀ x ∈ q, x < 256) →
    a2b (Coap.pyRepad (encStripped q)) 0 0 0 = some q
  | [], _ => by decide
  | [a], h => by
      have ha : a < 256 := h a (by simp)
      show a2b (Coap.pyRepad [b64urlChar (a / 4), b64urlChar (a % 4 * 16)])
        0 0 0 = some [a]
      rw [show Coap.pyRepad [b64urlChar (a / 4), b64urlChar (a % 4 * 16)] =
        [b64urlChar (a / 4), b64urlChar (a % 4 * 16), 61, 61] from rfl]
      rw [a2b_cons0 _ _ _ _ _ (b64urlChar_ne_pad _)
          (b64val_b64urlChar _ (by omega)),
        a2b_cons1 _ _ _ _ _ (b64urlChar_ne_pad _)
          (b64val_b64urlChar _ (by omega)),
        a2b_pads2]
      simp
      omega
  | [a, b], h => by
      have ha : a < 256 := h a (by simp)
      have hb : b < 256 := h b (by simp)
      show a2b (Coap.pyRepad [b64urlChar (a / 4),
        b64urlChar (a % 4 * 16 + b / 16), b64urlChar (b % 16 * 4)]) 0 0 0
        = some [a, b]
      rw [show Coap.pyRepad [b64urlChar (a / 4),
          b64urlChar (a % 4 * 16 + b / 16), b64urlChar (b % 16 * 4)] =
        [b64urlChar (a / 4), b64urlChar (a % 4 * 16 + b / 16),
          b64urlChar (b % 16 * 4), 61] from rfl]
      rw [a2b_cons0 _ _ _ _ _ (b64urlChar_ne_pad _)
          (b64val_b64urlChar _ (by omega)),
        a2b_cons1 _ _ _ _ _ (b64urlChar_ne_pad _)
          (b64val_b64urlChar _ (by omega)),
        a2b_cons2 _ _ _ _ _ (b64urlChar_ne_pad _)
          (b64val_b64urlChar _ (by omega)),
        a2b_pads1]
      simp
      omega
  | a :: b :: c :: rest, h => by
      have ha : a < 256 := h a (by simp)
      have hb : b < 256 := h b (by simp)
      have hc : c < 256 := h c (by simp)
      have ih := decode_encStripped rest (fun x hx => h x (by simp [hx]))
      have hmod : ∀ n : Nat, 4 - (n + 1 + 1 + 1 + 1) % 4 = 4 - n % 4 :=
        fun n => by omega
      have hlen : Coap.pyRepad (encStripped (a :: b :: c :: rest)) =
          b64urlChar (a / 4) :: b64urlChar (a % 4 * 16 + b / 16) ::
          b64urlChar (b % 16 * 4 + c / 64) :: b64urlChar (c % 64) ::
          Coap.pyRepad (encStripped rest) := by
        simp only [Coap.pyRepad, encStripped, List.length_cons,
          List.cons_append]
        rw [hmod]
      rw [hlen, a2b_quad a b c ha hb hc _, ih]
      rfl

end PyBase64

open PyBase64 Coap

/-- C6: for every byte string, applying the re-padding rule of render_get
to the padding-stripped urlsafe base64 encoding and then base64url-decoding
yields exactly the original bytes; the case where the stripped encoding has
length a multiple of 4 (four appended padding signs) is included, since the
lenient decoder consumes padding signs at quad position 0 without effect. -/
theorem C6_b64_repad_roundtrip (q : List Nat) (h : ∀ x ∈ q, x < 256) :
    urlsafe_b64decode (Coap.pyRepad (rstripEq (urlsafe_b64encode q)))
      = some q := by
  rw [rstrip_encode]
  exact decode_encStripped q h

/-- C6 witness: the round trip on the three-byte input whose stripped
encoding has length 4, a multiple of 4, so the re-padding step appends four
padding signs. -/
theorem C6_b64_repad_witness :
    urlsafe_b64decode (Coap.pyRepad (rstripEq (urlsafe_b64encode
      [104, 105, 33]))) = some [104, 105, 33] :=
  C6_b64_repad_roundtrip [104, 105, 33] (by decide)

namespace Coap

/-- Assignment makes the key present with the assigned value. -/
theorem lookupKV_setKV_self {α : Type} (k : List Nat) (v : α) :
    ∀ m : List (List Nat × α), lookupKV k (setKV k v m) = some v
  | [] => by simp [setKV, lookupKV]
  | (k1, v1) :: rest => by
      by_cases h : k = k1
      · simp [setKV, lookupKV, h]
      · simp [setKV, lookupKV, h, lookupKV_setKV_self k v rest]

/-- Assignment into a dict holding the key at most once leaves exactly one
entry for the key. -/
theorem keyCount_setKV {α : Type} (k : List Nat) (v : α) :
    ∀ m : List (List Nat × α), keyCount k m ≤ 1 →
      keyCount k (setKV k v m) = 1
  | [], _ => by simp [setKV, keyCount]
  | (k1, v1) :: rest, h => by
      by_cases hk : k = k1
      · subst hk
        simp [setKV, keyCount, List.filter_cons] at h ⊢
        exact h
      · have hk1 : (k1 == k) = false := by
          simp
          exact fun hcon => hk hcon.symm
        simp [setKV, hk, keyCount, List.filter_cons, hk1] at h ⊢
        exact keyCount_setKV k v rest h

end Coap

/-- C4 counterexample: after a full insert-fulfil cycle on a fresh map the
entry for the query-bytes key is still present (holding the fulfilled
slot), contradicting the claim that the slot is removed from the map after
fulfilment: no statement in the source deletes it. -/
theorem C4_counterexample :
    send_response_to_requester (dns_response_insert [] [1, 2]) [1, 2] [3]
      = some [([1, 2], Slot.fulfilled [3])] ∧
    lookupKV [1, 2] [([1, 2], Slot.fulfilled [3])] ≠ none :=
  ⟨rfl, by decide⟩

/-- C4 amended: when a query enters dispatch a pending slot keyed by the
exact query bytes is inserted (overwriting in place, so the map holds at
most one slot per key); when the upstream response returns the slot is
fulfilled exactly once (a second fulfilment attempt is the assertion or
InvalidStateError failure path); the fulfilled entry is however never
removed from the map. -/
theorem C4_pending_map_lifecycle (m : PendingMap) (q r : List Nat)
    (h : keyCount q m ≤ 1) :
    lookupKV q (dns_response_insert m q) = some Slot.pending ∧
    keyCount q (dns_response_insert m q) = 1 ∧
    send_response_to_requester (dns_response_insert m q) q r =
      some (setKV q (Slot.fulfilled r) (dns_response_insert m q)) ∧
    lookupKV q (setKV q (Slot.fulfilled r) (dns_response_insert m q)) =
      some (Slot.fulfilled r) ∧
    keyCount q (setKV q (Slot.fulfilled r) (dns_response_insert m q)) = 1 ∧
    send_response_to_requester
      (setKV q (Slot.fulfilled r) (dns_response_insert m q)) q r = none := by
  have h1 := lookupKV_setKV_self q Slot.pending m
  have h2 : keyCount q (dns_response_insert m q) = 1 :=
    keyCount_setKV q Slot.pending m h
  have h4 :=
    lookupKV_setKV_self q (Slot.fulfilled r) (dns_response_insert m q)
  refine ⟨h1, h2, ?_, h4, ?_, ?_⟩
  · simp [send_response_to_requester, dns_response_insert, h1]
  · exact keyCount_setKV q (Slot.fulfilled r) _ (by omega)
  · simp [send_response_to_requester, h4]

/-- C4 witness: the lifecycle theorem on the empty map with query bytes [1]
and response bytes [2]. -/
theorem C4_pending_map_witness :
    lookupKV [1] (dns_response_insert ([] : PendingMap) [1]) =
      some Slot.pending ∧
    keyCount [1] (dns_response_insert ([] : PendingMap) [1]) = 1 ∧
    send_response_to_requester (dns_response_insert ([] : PendingMap) [1])
      [1] [2] =
      some (setKV [1] (Slot.fulfilled [2])
        (dns_response_insert ([] : PendingMap) [1])) ∧
    lookupKV [1] (setKV [1] (Slot.fulfilled [2])
      (dns_response_insert ([] : PendingMap) [1])) =
      some (Slot.fulfilled [2]) ∧
    keyCount [1] (setKV [1] (Slot.fulfilled [2])
      (dns_response_insert ([] : PendingMap) [1])) = 1 ∧
    send_response_to_requester (setKV [1] (Slot.fulfilled [2])
      (dns_response_insert ([] : PendingMap) [1])) [1] [2] = none :=
  C4_pending_map_lifecycle [] [1] [2] (by decide)

/-- C5 counterexample: a request whose Accept option is present and not the
DNS-message content format is answered NotAcceptable (4.06), but the
upstream-dispatch trace is non-empty: the source awaits the upstream
response before checking Accept, so an upstream query is issued,
contradicting the claim that no upstream query is issued for such a
request. -/
theorem C5_counterexample :
    _render_acceptable (fun q => q) (some 0) [1] =
      ([CoapEvent.upstreamQuery [1]], RenderOutcome.notAcceptable) ∧
    ([CoapEvent.upstreamQuery [1]] : List CoapEvent) ≠ [] :=
  ⟨rfl, by decide⟩

/-- C5 amended: for every request whose Accept option is present and not
the DNS-message content format, the resource replies 4.06 Not Acceptable,
but only after the query has been dispatched upstream and its response
awaited: the render path first records the upstream dispatch for the query
bytes and then raises NotAcceptable. -/
theorem C5_not_acceptable_after_dispatch (upstream : List Nat → List Nat)
    (accept : Option Nat) (query : List Nat)
    (hne : accept ≠ none) (hfmt : accept ≠ some CONTENT_FORMAT_DNS_MESSAGE) :
    _render_acceptable upstream accept query =
      ([CoapEvent.upstreamQuery query], RenderOutcome.notAcceptable) := by
  have hcond : ¬(accept = none ∨ accept = some CONTENT_FORMAT_DNS_MESSAGE) := by
    rintro (h | h)
    · exact hne h
    · exact hfmt h
  simp only [_render_acceptable, if_neg hcond]

/-- C5 witness: the amended theorem on Accept text/plain (0) and query
bytes [5]. -/
theorem C5_not_acceptable_witness :
    _render_acceptable (fun q => q) (some 0) [5] =
      ([CoapEvent.upstreamQuery [5]], RenderOutcome.notAcceptable) :=
  C5_not_acceptable_after_dispatch (fun q => q) (some 0) [5]
    (by decide) (by decide)

/-- C9: for each of the three server handles, a second close after a
completed close returns without error, performs no further I/O, and leaves
the state unchanged. -/
theorem C9_close_idempotent :
    (∀ s : Servers.UDPServerState,
      Servers.udpClose (Servers.udpClose s).1 =
        ((Servers.udpClose s).1, [])) ∧
    (∀ s : Servers.DTLSServerState,
      Servers.dtlsClose (Servers.dtlsClose s).1 =
        ((Servers.dtlsClose s).1, [])) ∧
    (∀ s : Servers.CoapContextState,
      Servers.coapClose (Servers.coapClose s).1 =
        ((Servers.coapClose s).1, [])) := by
  refine ⟨?_, ?_, ?_⟩
  · rintro ⟨t⟩
    cases t <;> simp [Servers.udpClose]
  · rintro ⟨t, d⟩
    cases t <;> simp [Servers.dtlsClose]
  · rintro ⟨ri⟩
    by_cases h : ri.isEmpty <;> simp [Servers.coapClose, h]

/-- C10: a syntactically valid CoAP GET request whose URI query holds the
element a=b=c (two equals signs) makes render_get raise ValueError from the
dict construction, before any CoAP error response is produced: the result
is the python exception, not one of the 4.00, 4.06 or 4.15 outcomes, so
render_get is not total over URI query strings. -/
theorem C10_render_get_uri_query_value_error (upstream : List Nat → List Nat)
    (accept : Option Nat) :
    render_get upstream accept [[97, 61, 98, 61, 99]] =
      Except.error PyError.valueError := rfl

end Aiodnsprox
